import Mathlib

/-!
Shallow embedding of the CoBrain desktop shell
(`src/apps/desktop/src-tauri/src/main.rs` and `tray.rs`).

The Rust code is a thin event-routing layer over the Tauri host: tray menu
handlers, a tray-icon click handler, a global hotkey handler, and four
invocable commands (`show_main_window`, `hide_main_window`,
`open_quick_capture`, `send_notification`), all operating on the single
webview window named "main".

Host window calls (`show`, `set_focus`, `hide`, `eval`) return `Result`s that
the Rust code discards with `let _ = ...`.  We model each such call by a
`Host` oracle of booleans saying whether the call succeeds; a succeeding call
applies its state effect, a failing one leaves the window unchanged, and in
either case the handler proceeds (the result is dropped, mirroring the
source).  Each handler returns the new application state together with the
trace of host actions it attempted, in source order.
-/

namespace CoBrain

/-- The action vocabulary of the shell: the host window calls a handler can
issue, in the order they appear in a trace. -/
inductive Action where
  | show : Action
  | focus : Action
  | navigate : String → Action
  | hide : Action
  | quit : Nat → Action
deriving DecidableEq, Repr

/-- State of the single "main" webview window: visibility, focus, and the
navigation target last set through `window.eval`. -/
structure Window where
  visible : Bool
  focused : Bool
  navTarget : Option String
deriving DecidableEq, Repr

/-- Application state: the "main" window as seen by
`app.get_webview_window("main")` (`none` while it does not exist yet), and
the exit code once `app.exit` has been called. -/
structure AppState where
  mainWindow : Option Window
  exited : Option Nat
deriving DecidableEq, Repr

/-- Outcome oracle for the fallible host window calls whose `Result`s the
Rust code discards: `true` means the host call succeeds and its effect is
applied, `false` means it fails and the window is left unchanged. -/
structure Host where
  showOk : Bool
  focusOk : Bool
  hideOk : Bool
  evalOk : Bool
deriving DecidableEq, Repr

/-- A host on which every window call succeeds. -/
def Host.allOk : Host := ⟨true, true, true, true⟩

/-- A host on which every window call fails. -/
def Host.allFail : Host := ⟨false, false, false, false⟩

/-- `window.show()`: makes the window visible when the host call succeeds;
the attempted action is recorded either way. -/
def hostShow (h : Host) (w : Window) : Window × List Action :=
  (if h.showOk then { w with visible := true } else w, [Action.show])

/-- `window.set_focus()`: focuses the window when the host call succeeds. -/
def hostSetFocus (h : Host) (w : Window) : Window × List Action :=
  (if h.focusOk then { w with focused := true } else w, [Action.focus])

/-- `window.hide()`: hides the window when the host call succeeds. -/
def hostHide (h : Host) (w : Window) : Window × List Action :=
  (if h.hideOk then { w with visible := false } else w, [Action.hide])

/-- Extracts the assigned location from a script of the exact shape
`window.location.href = <quote>PATH<quote>`, the only script the shell ever
evaluates. -/
def hrefOfScript (s : String) : Option String :=
  let pre : List Char := "window.location.href = \x27".data
  let cs : List Char := s.data
  if pre.isPrefixOf cs && cs.getLast? == some (Char.ofNat 39) then
    some (String.mk ((cs.drop pre.length).dropLast))
  else
    none

/-- `window.eval(script)`: for a location-assignment script, sets the
navigation target when the host call succeeds and records the navigation
attempt; any other script is outside the shell's vocabulary. -/
def hostEval (h : Host) (script : String) (w : Window) : Window × List Action :=
  match hrefOfScript script with
  | some url =>
      (if h.evalOk then { w with navTarget := some url } else w,
       [Action.navigate url])
  | none => (w, [])

/-- The literal script passed to `window.eval` by `open_quick_capture`, the
hotkey handler, and the tray "capture" menu handler. -/
def captureScript : String := "window.location.href = \x27/capture\x27"

/-- `main.rs` command `show_main_window`: if `get_webview_window("main")`
returns a window, show it then focus it, discarding both results; otherwise
do nothing. -/
def show_main_window (h : Host) (st : AppState) : AppState × List Action :=
  match st.mainWindow with
  | some window =>
      let (window, t1) := hostShow h window
      let (window, t2) := hostSetFocus h window
      ({ st with mainWindow := some window }, t1 ++ t2)
  | none => (st, [])

/-- `main.rs` command `hide_main_window`: if the "main" window is present,
hide it, discarding the result; otherwise do nothing. -/
def hide_main_window (h : Host) (st : AppState) : AppState × List Action :=
  match st.mainWindow with
  | some window =>
      let (window, t1) := hostHide h window
      ({ st with mainWindow := some window }, t1)
  | none => (st, [])

/-- `main.rs` command `open_quick_capture`: if the "main" window is present,
show it, focus it, then evaluate the capture-navigation script, discarding
all three results; otherwise do nothing. -/
def open_quick_capture (h : Host) (st : AppState) : AppState × List Action :=
  match st.mainWindow with
  | some window =>
      let (window, t1) := hostShow h window
      let (window, t2) := hostSetFocus h window
      let (window, t3) := hostEval h captureScript window
      ({ st with mainWindow := some window }, t1 ++ t2 ++ t3)
  | none => (st, [])

/-- The closure installed by `setup_global_shortcut` for Ctrl+Shift+Space:
its body in `main.rs` repeats the body of `open_quick_capture` verbatim
(show, focus, evaluate the capture script, all results discarded). -/
def globalShortcutHandler (h : Host) (st : AppState) : AppState × List Action :=
  match st.mainWindow with
  | some window =>
      let (window, t1) := hostShow h window
      let (window, t2) := hostSetFocus h window
      let (window, t3) := hostEval h captureScript window
      ({ st with mainWindow := some window }, t1 ++ t2 ++ t3)
  | none => (st, [])

/-- Mouse buttons distinguished by the tray-icon click handler. -/
inductive MouseButton where
  | left : MouseButton
  | right : MouseButton
  | middle : MouseButton
deriving DecidableEq, Repr

/-- Tray icon events: a click with a button, or any other tray event
(double click, enter, move, leave), which `tray.rs` ignores. -/
inductive TrayIconEvent where
  | click : MouseButton → TrayIconEvent
  | other : TrayIconEvent
deriving DecidableEq, Repr

/-- `tray.rs` `on_menu_event` handler, keyed by the menu item id:
"open" shows and focuses the "main" window when present; "capture" shows,
focuses and navigates it to the capture page when present; "quit" calls
`app.exit(0)`; every other id is ignored. -/
def trayOnMenuEvent (h : Host) (eventId : String) (st : AppState) :
    AppState × List Action :=
  match eventId with
  | "open" =>
      match st.mainWindow with
      | some window =>
          let (window, t1) := hostShow h window
          let (window, t2) := hostSetFocus h window
          ({ st with mainWindow := some window }, t1 ++ t2)
      | none => (st, [])
  | "capture" =>
      match st.mainWindow with
      | some window =>
          let (window, t1) := hostShow h window
          let (window, t2) := hostSetFocus h window
          let (window, t3) := hostEval h captureScript window
          ({ st with mainWindow := some window }, t1 ++ t2 ++ t3)
      | none => (st, [])
  | "quit" => ({ st with exited := some 0 }, [Action.quit 0])
  | _ => (st, [])

/-- `tray.rs` `on_tray_icon_event` handler: on a left-button click, show
and focus the "main" window when present; any other event is ignored. -/
def trayOnTrayIconEvent (h : Host) (ev : TrayIconEvent) (st : AppState) :
    AppState × List Action :=
  match ev with
  | TrayIconEvent.click MouseButton.left =>
      match st.mainWindow with
      | some window =>
          let (window, t1) := hostShow h window
          let (window, t2) := hostSetFocus h window
          ({ st with mainWindow := some window }, t1 ++ t2)
      | none => (st, [])
  | _ => (st, [])

/-- Key codes used by the shell; only `Code::Space` occurs. -/
inductive Code where
  | space : Code
deriving DecidableEq, Repr

/-- Modifier set of a global shortcut. -/
structure Modifiers where
  control : Bool
  shift : Bool
  alt : Bool
  superKey : Bool
deriving DecidableEq, Repr

/-- A global shortcut: a modifier set plus a key code. -/
structure Shortcut where
  mods : Modifiers
  code : Code
deriving DecidableEq, Repr

/-- The single shortcut built by `setup_global_shortcut`:
`Shortcut::new(Some(Modifiers::CONTROL | Modifiers::SHIFT), Code::Space)`. -/
def registeredShortcut : Shortcut :=
  ⟨⟨true, true, false, false⟩, Code.space⟩

/-- A tray menu item as built by `MenuItem::with_id`: stable id, label,
enabled flag, optional accelerator-hint string. -/
structure MenuItem where
  itemId : String
  label : String
  enabled : Bool
  accelerator : Option String
deriving DecidableEq, Repr

/-- A tray menu: its items in order. -/
structure Menu where
  items : List MenuItem
deriving DecidableEq, Repr

/-- A built tray icon: its menu and tooltip. -/
structure TrayIcon where
  menu : Menu
  tooltip : String
deriving DecidableEq, Repr

/-- Outcome oracle for the fallible host construction calls made during
startup, one field per `?`-propagated call site, in source order. -/
structure SetupHost where
  openItemRes : Except String Unit
  captureItemRes : Except String Unit
  sepItemRes : Except String Unit
  quitItemRes : Except String Unit
  menuRes : Except String Unit
  trayBuildRes : Except String Unit
  onShortcutRes : Except String Unit
  registerRes : Except String Unit

/-- `MenuItem::with_id`: builds the item from its arguments, or fails with
the host's error. -/
def menuItemWithId (res : Except String Unit) (itemId label : String)
    (enabled : Bool) (accelerator : Option String) : Except String MenuItem :=
  res.map fun _ => ⟨itemId, label, enabled, accelerator⟩

/-- `Menu::with_items`: builds the menu from the given items, or fails. -/
def menuWithItems (res : Except String Unit) (items : List MenuItem) :
    Except String Menu :=
  res.map fun _ => ⟨items⟩

/-- `TrayIconBuilder::...build(app)`: builds the tray icon, or fails. -/
def trayIconBuild (res : Except String Unit) (menu : Menu) (tooltip : String) :
    Except String TrayIcon :=
  res.map fun _ => ⟨menu, tooltip⟩

/-- `global_shortcut().on_shortcut(shortcut, handler)`: installs the hotkey
handler, or fails. -/
def onShortcutInstall (res : Except String Unit) (_sc : Shortcut) :
    Except String Unit :=
  res

/-- `global_shortcut().register(shortcut)`: registers the hotkey with the
OS, or fails. -/
def shortcutRegister (res : Except String Unit) (_sc : Shortcut) :
    Except String Unit :=
  res

/-- `tray.rs` `setup_tray`: builds the four menu items, the menu and the
tray icon, propagating the first failure with `?`. -/
def setup_tray (sh : SetupHost) : Except String TrayIcon := do
  let openItem ← menuItemWithId sh.openItemRes "open" "Open CoBrain" true none
  let captureItem ← menuItemWithId sh.captureItemRes "capture" "Quick Capture"
    true (some "Ctrl+Shift+Space")
  let separator ← menuItemWithId sh.sepItemRes "sep" "-" false none
  let quitItem ← menuItemWithId sh.quitItemRes "quit" "Quit" true
    (some "Ctrl+Q")
  let menu ← menuWithItems sh.menuRes [openItem, captureItem, separator, quitItem]
  trayIconBuild sh.trayBuildRes menu "CoBrain - Your AI Second Brain"

/-- `main.rs` `setup_global_shortcut`: installs the Ctrl+Shift+Space handler
then registers the shortcut, propagating the first failure with `?`. -/
def setup_global_shortcut (sh : SetupHost) : Except String Unit := do
  let _ ← onShortcutInstall sh.onShortcutRes registeredShortcut
  let _ ← shortcutRegister sh.registerRes registeredShortcut
  pure ()

/-- The `.setup(|app| ...)` closure in `main`: `setup_tray(app)?` then
`setup_global_shortcut(app)?`. -/
def appSetup (sh : SetupHost) : Except String TrayIcon := do
  let tray ← setup_tray sh
  let _ ← setup_global_shortcut sh
  pure tray

/-- Outcome of startup: when the setup closure fails, Tauri's `run` returns
an error and the trailing `.expect` aborts the process, so no running
tray/shortcut state exists; on success the built tray is live. -/
def runApp (sh : SetupHost) : Option TrayIcon :=
  match appSetup sh with
  | Except.ok tray => some tray
  | Except.error _ => none

/-- A host-side notification error; `to_string` renders its message. -/
structure NotifyError where
  msg : String
deriving DecidableEq, Repr

/-- `e.to_string()` on a host notification error. -/
def NotifyError.toString (e : NotifyError) : String := e.msg

/-- The notification builder state accumulated by
`.builder().title(&title).body(&body)`. -/
structure NotificationBuilder where
  title : Option String
  body : Option String
deriving DecidableEq, Repr

/-- `main.rs` command `send_notification`: builds a notification with the
given title and body, calls the host facility exactly once (`.show()`), and
maps a host failure to its string rendering with `map_err(|e| e.to_string())?`.
Alongside the result we log each host call made, to express that no retry
happens. -/
def send_notification (host : NotificationBuilder → Except NotifyError Unit)
    (title body : String) : Except String Unit × List NotificationBuilder :=
  let b : NotificationBuilder := ⟨none, none⟩
  let b := { b with title := some title }
  let b := { b with body := some body }
  match host b with
  | Except.ok _ => (Except.ok (), [b])
  | Except.error e => (Except.error e.toString, [b])

/-! ## Helper lemmas -/

lemma hrefOfScript_captureScript : hrefOfScript captureScript = some "/capture" := rfl

/-! ## Claims -/

/-- C1: For every trigger path ending in capture (tray menu item "capture",
the `open_quick_capture` command, and the Ctrl+Shift+Space hotkey handler),
when the main window lookup succeeds (and the discarded host calls succeed),
the resulting state has the window visible, focused, and with navigation
target "/capture". -/
theorem capture_paths_show_focus_navigate (h : Host) (st : AppState)
    (w : Window) (hw : st.mainWindow = some w) (hs : h.showOk = true)
    (hf : h.focusOk = true) (he : h.evalOk = true) :
    (∃ w1, ((trayOnMenuEvent h "capture" st).1).mainWindow = some w1 ∧
      w1.visible = true ∧ w1.focused = true ∧ w1.navTarget = some "/capture") ∧
    (∃ w2, ((open_quick_capture h st).1).mainWindow = some w2 ∧
      w2.visible = true ∧ w2.focused = true ∧ w2.navTarget = some "/capture") ∧
    (∃ w3, ((globalShortcutHandler h st).1).mainWindow = some w3 ∧
      w3.visible = true ∧ w3.focused = true ∧ w3.navTarget = some "/capture") := by
  simp [trayOnMenuEvent, open_quick_capture, globalShortcutHandler, hostShow,
    hostSetFocus, hostEval, hrefOfScript_captureScript, hw, hs, hf, he]

/-- C1 witness: the capture trigger paths on a concrete present window. -/
theorem capture_paths_show_focus_navigate_witness :
    (∃ w1, ((trayOnMenuEvent Host.allOk "capture"
        ⟨some ⟨false, false, none⟩, none⟩).1).mainWindow = some w1 ∧
      w1.visible = true ∧ w1.focused = true ∧ w1.navTarget = some "/capture") ∧
    (∃ w2, ((open_quick_capture Host.allOk
        ⟨some ⟨false, false, none⟩, none⟩).1).mainWindow = some w2 ∧
      w2.visible = true ∧ w2.focused = true ∧ w2.navTarget = some "/capture") ∧
    (∃ w3, ((globalShortcutHandler Host.allOk
        ⟨some ⟨false, false, none⟩, none⟩).1).mainWindow = some w3 ∧
      w3.visible = true ∧ w3.focused = true ∧ w3.navTarget = some "/capture") :=
  capture_paths_show_focus_navigate Host.allOk ⟨some ⟨false, false, none⟩, none⟩
    ⟨false, false, none⟩ rfl rfl rfl rfl

/-- C2: For every window-opening trigger path that does not navigate (tray
menu item "open", tray-icon left click, and the `show_main_window` command),
when the main window lookup succeeds (and the discarded host calls succeed),
the resulting state has the window visible and focused. -/
theorem open_paths_show_focus (h : Host) (st : AppState) (w : Window)
    (hw : st.mainWindow = some w) (hs : h.showOk = true)
    (hf : h.focusOk = true) :
    (∃ w1, ((trayOnMenuEvent h "open" st).1).mainWindow = some w1 ∧
      w1.visible = true ∧ w1.focused = true) ∧
    (∃ w2, ((trayOnTrayIconEvent h (TrayIconEvent.click MouseButton.left)
        st).1).mainWindow = some w2 ∧ w2.visible = true ∧ w2.focused = true) ∧
    (∃ w3, ((show_main_window h st).1).mainWindow = some w3 ∧
      w3.visible = true ∧ w3.focused = true) := by
  simp [trayOnMenuEvent, trayOnTrayIconEvent, show_main_window, hostShow,
    hostSetFocus, hw, hs, hf]

/-- C2 witness: the non-navigating opening trigger paths on a concrete
present window. -/
theorem open_paths_show_focus_witness :
    (∃ w1, ((trayOnMenuEvent Host.allOk "open"
        ⟨some ⟨false, false, none⟩, none⟩).1).mainWindow = some w1 ∧
      w1.visible = true ∧ w1.focused = true) ∧
    (∃ w2, ((trayOnTrayIconEvent Host.allOk
        (TrayIconEvent.click MouseButton.left)
        ⟨some ⟨false, false, none⟩, none⟩).1).mainWindow = some w2 ∧
      w2.visible = true ∧ w2.focused = true) ∧
    (∃ w3, ((show_main_window Host.allOk
        ⟨some ⟨false, false, none⟩, none⟩).1).mainWindow = some w3 ∧
      w3.visible = true ∧ w3.focused = true) :=
  open_paths_show_focus Host.allOk ⟨some ⟨false, false, none⟩, none⟩
    ⟨false, false, none⟩ rfl rfl rfl

/-- C3: When the lookup of the window named "main" returns absent, every
listed handler and command (`show_main_window`, `hide_main_window`,
`open_quick_capture`, the hotkey handler, and the tray menu handlers for
"open" and "capture") is a no-op: it returns the state unchanged, issues no
host action, and signals no error. -/
theorem absent_window_noop (h : Host) (st : AppState)
    (hn : st.mainWindow = none) :
    show_main_window h st = (st, []) ∧
    hide_main_window h st = (st, []) ∧
    open_quick_capture h st = (st, []) ∧
    globalShortcutHandler h st = (st, []) ∧
    trayOnMenuEvent h "open" st = (st, []) ∧
    trayOnMenuEvent h "capture" st = (st, []) := by
  simp [show_main_window, hide_main_window, open_quick_capture,
    globalShortcutHandler, trayOnMenuEvent, hn]

/-- C3 witness: the absent-window no-op at a concrete state. -/
theorem absent_window_noop_witness :
    show_main_window Host.allOk ⟨none, none⟩ = (⟨none, none⟩, []) ∧
    hide_main_window Host.allOk ⟨none, none⟩ = (⟨none, none⟩, []) ∧
    open_quick_capture Host.allOk ⟨none, none⟩ = (⟨none, none⟩, []) ∧
    globalShortcutHandler Host.allOk ⟨none, none⟩ = (⟨none, none⟩, []) ∧
    trayOnMenuEvent Host.allOk "open" ⟨none, none⟩ = (⟨none, none⟩, []) ∧
    trayOnMenuEvent Host.allOk "capture" ⟨none, none⟩ = (⟨none, none⟩, []) :=
  absent_window_noop Host.allOk ⟨none, none⟩ rfl

/-- C5: `hide_main_window` on a present window (with the discarded host call
succeeding) yields a state in which the window is not visible, and on an
absent window it has no effect on any state. -/
theorem hide_main_window_spec (h : Host) (st : AppState) :
    (∀ w, st.mainWindow = some w → h.hideOk = true →
      ∃ w1, ((hide_main_window h st).1).mainWindow = some w1 ∧
        w1.visible = false) ∧
    (st.mainWindow = none → hide_main_window h st = (st, [])) := by
  constructor
  · intro w hw hh
    simp [hide_main_window, hostHide, hw, hh]
  · intro hn
    simp [hide_main_window, hn]

/-- C5 witness: hiding a concrete visible window, and hiding with the window
absent. -/
theorem hide_main_window_spec_witness :
    (∃ w1, ((hide_main_window Host.allOk
        ⟨some ⟨true, true, none⟩, none⟩).1).mainWindow = some w1 ∧
      w1.visible = false) ∧
    hide_main_window Host.allOk ⟨none, none⟩ = (⟨none, none⟩, []) :=
  ⟨(hide_main_window_spec Host.allOk ⟨some ⟨true, true, none⟩, none⟩).1
      ⟨true, true, none⟩ rfl rfl,
   (hide_main_window_spec Host.allOk ⟨none, none⟩).2 rfl⟩

/-- C7: The handler bound to the registered Ctrl+Shift+Space global hotkey
is functionally identical to the `open_quick_capture` command: on every host
outcome and window state it produces the same resulting state (and the same
action trace). -/
theorem hotkey_handler_equiv_open_quick_capture (h : Host) (st : AppState) :
    globalShortcutHandler h st = open_quick_capture h st := rfl

/-- C9: `show_main_window` is idempotent: for every host outcome and window
state, invoking it twice in succession yields the same final state as
invoking it once. -/
theorem show_main_window_idempotent (h : Host) (st : AppState) :
    (show_main_window h (show_main_window h st).1).1 =
      (show_main_window h st).1 := by
  obtain ⟨mw, ex⟩ := st
  cases mw with
  | none => simp [show_main_window]
  | some w =>
      obtain ⟨s, f, hd, e⟩ := h
      cases s <;> cases f <;> simp [show_main_window, hostShow, hostSetFocus]

/-- A trace opens the window cleanly when it starts with Show immediately
followed by Focus, and any Navigate action occurs only after that pair. -/
def traceOpensCleanly (τ : List Action) : Prop :=
  τ.take 2 = [Action.show, Action.focus] ∧
  ∀ i t, τ[i]? = some (Action.navigate t) → 2 ≤ i

lemma traceOpensCleanly_show_focus :
    traceOpensCleanly [Action.show, Action.focus] := by
  refine ⟨rfl, ?_⟩
  intro i t hi
  match i with
  | 0 => simp at hi
  | 1 => simp at hi
  | n + 2 => omega

lemma traceOpensCleanly_show_focus_nav (t : String) :
    traceOpensCleanly [Action.show, Action.focus, Action.navigate t] := by
  refine ⟨rfl, ?_⟩
  intro i u hi
  match i with
  | 0 => simp at hi
  | 1 => simp at hi
  | n + 2 => omega

/-- C4: For every trigger path that results in opening the window (tray menu
"open" and "capture" clicks, tray-icon left click, and the hotkey), the
emitted action sequence performs Show immediately followed by Focus, and
Navigate, when requested, comes only after that pair. -/
theorem opening_traces_ordered (h : Host) (st : AppState) (w : Window)
    (hw : st.mainWindow = some w) :
    traceOpensCleanly (trayOnMenuEvent h "open" st).2 ∧
    traceOpensCleanly (trayOnMenuEvent h "capture" st).2 ∧
    traceOpensCleanly
      (trayOnTrayIconEvent h (TrayIconEvent.click MouseButton.left) st).2 ∧
    traceOpensCleanly (globalShortcutHandler h st).2 := by
  have h1 : (trayOnMenuEvent h "open" st).2 = [Action.show, Action.focus] := by
    simp [trayOnMenuEvent, hostShow, hostSetFocus, hw]
  have h2 : (trayOnMenuEvent h "capture" st).2 =
      [Action.show, Action.focus, Action.navigate "/capture"] := by
    simp [trayOnMenuEvent, hostShow, hostSetFocus, hostEval,
      hrefOfScript_captureScript, hw]
  have h3 : (trayOnTrayIconEvent h (TrayIconEvent.click MouseButton.left)
      st).2 = [Action.show, Action.focus] := by
    simp [trayOnTrayIconEvent, hostShow, hostSetFocus, hw]
  have h4 : (globalShortcutHandler h st).2 =
      [Action.show, Action.focus, Action.navigate "/capture"] := by
    simp [globalShortcutHandler, hostShow, hostSetFocus, hostEval,
      hrefOfScript_captureScript, hw]
  rw [h1, h2, h3, h4]
  exact ⟨traceOpensCleanly_show_focus, traceOpensCleanly_show_focus_nav _,
    traceOpensCleanly_show_focus, traceOpensCleanly_show_focus_nav _⟩

/-- C4 witness: the opening traces at a concrete present window. -/
theorem opening_traces_ordered_witness :
    traceOpensCleanly
      (trayOnMenuEvent Host.allOk "open" ⟨some ⟨false, false, none⟩, none⟩).2 ∧
    traceOpensCleanly
      (trayOnMenuEvent Host.allOk "capture"
        ⟨some ⟨false, false, none⟩, none⟩).2 ∧
    traceOpensCleanly
      (trayOnTrayIconEvent Host.allOk (TrayIconEvent.click MouseButton.left)
        ⟨some ⟨false, false, none⟩, none⟩).2 ∧
    traceOpensCleanly
      (globalShortcutHandler Host.allOk ⟨some ⟨false, false, none⟩, none⟩).2 :=
  opening_traces_ordered Host.allOk ⟨some ⟨false, false, none⟩, none⟩
    ⟨false, false, none⟩ rfl

/-- C6: `send_notification` calls the host facility exactly once (no retry),
returns success when the host succeeds, and when the host fails returns an
error carrying exactly the host's rendered error text; being a total
function it never panics. -/
theorem send_notification_spec
    (host : NotificationBuilder → Except NotifyError Unit)
    (title body : String) :
    (send_notification host title body).2.length = 1 ∧
    (host ⟨some title, some body⟩ = Except.ok () →
      (send_notification host title body).1 = Except.ok ()) ∧
    (∀ e, host ⟨some title, some body⟩ = Except.error e →
      (send_notification host title body).1 = Except.error e.msg) := by
  cases hr : host ⟨some title, some body⟩ with
  | ok u =>
      cases u
      exact ⟨by simp [send_notification, hr], fun _ => by
        simp [send_notification, hr], fun e he => by simp [hr] at he⟩
  | error e =>
      have hres : (send_notification host title body).1 =
          Except.error e.msg := by
        simp [send_notification, hr, NotifyError.toString]
      refine ⟨by simp [send_notification, hr], fun hok => ?_, fun e1 he => ?_⟩
      · simp at hok
      · injection he with h2
        rw [← h2]
        exact hres

/-- C6 witness: a concrete failing host facility yields the host's error
text, with a single host call. -/
theorem send_notification_spec_witness :
    (send_notification (fun _ => Except.error ⟨"boom"⟩) "T" "B").2.length
      = 1 ∧
    (send_notification (fun _ => Except.error ⟨"boom"⟩) "T" "B").1 =
      Except.error "boom" :=
  ⟨(send_notification_spec (fun _ => Except.error ⟨"boom"⟩) "T" "B").1,
   (send_notification_spec (fun _ => Except.error ⟨"boom"⟩) "T" "B").2.2
     ⟨"boom"⟩ rfl⟩

lemma appSetup_ok_components (sh : SetupHost) (t : TrayIcon)
    (hok : appSetup sh = Except.ok t) :
    sh.openItemRes = Except.ok () ∧ sh.captureItemRes = Except.ok () ∧
    sh.sepItemRes = Except.ok () ∧ sh.quitItemRes = Except.ok () ∧
    sh.menuRes = Except.ok () ∧ sh.trayBuildRes = Except.ok () ∧
    sh.onShortcutRes = Except.ok () ∧ sh.registerRes = Except.ok () := by
  obtain ⟨r1, r2, r3, r4, r5, r6, r7, r8⟩ := sh
  cases r1 <;> cases r2 <;> cases r3 <;> cases r4 <;> cases r5 <;> cases r6 <;>
    cases r7 <;> cases r8 <;>
      simp_all [appSetup, setup_tray, setup_global_shortcut, menuItemWithId,
        menuWithItems, trayIconBuild, onShortcutInstall, shortcutRegister,
        Except.map, Bind.bind, Except.bind]

/-- C8: If any menu-item or menu construction, the tray build, the hotkey
handler installation, or the shortcut registration fails during startup,
the setup closure propagates the error and startup aborts: no running
tray/shortcut state exists for the user to interact with. -/
theorem fatal_setup_error_aborts_startup (sh : SetupHost)
    (hfail : (∃ e, sh.openItemRes = Except.error e) ∨
      (∃ e, sh.captureItemRes = Except.error e) ∨
      (∃ e, sh.sepItemRes = Except.error e) ∨
      (∃ e, sh.quitItemRes = Except.error e) ∨
      (∃ e, sh.menuRes = Except.error e) ∨
      (∃ e, sh.trayBuildRes = Except.error e) ∨
      (∃ e, sh.onShortcutRes = Except.error e) ∨
      (∃ e, sh.registerRes = Except.error e)) :
    (∃ e, appSetup sh = Except.error e) ∧ runApp sh = none := by
  cases happ : appSetup sh with
  | ok t =>
      exfalso
      have hco := appSetup_ok_components sh t happ
      rcases hfail with ⟨e, he⟩ | ⟨e, he⟩ | ⟨e, he⟩ | ⟨e, he⟩ | ⟨e, he⟩ |
        ⟨e, he⟩ | ⟨e, he⟩ | ⟨e, he⟩ <;> simp_all
  | error e =>
      exact ⟨⟨e, rfl⟩, by simp [runApp, happ]⟩

/-- C8 witness: a concrete startup in which the menu build fails aborts with
no running state. -/
theorem fatal_setup_error_aborts_startup_witness :
    (∃ e, appSetup ⟨Except.ok (), Except.ok (), Except.ok (), Except.ok (),
      Except.error "menu build failed", Except.ok (), Except.ok (),
      Except.ok ()⟩ = Except.error e) ∧
    runApp ⟨Except.ok (), Except.ok (), Except.ok (), Except.ok (),
      Except.error "menu build failed", Except.ok (), Except.ok (),
      Except.ok ()⟩ = none :=
  fatal_setup_error_aborts_startup _
    (Or.inr (Or.inr (Or.inr (Or.inr (Or.inl ⟨"menu build failed", rfl⟩)))))

/-- C10: The handlers discard the results of the host window calls: even on
a host on which every call fails, each handler and command completes without
error, leaving the state unchanged while still attempting its full call
sequence — so the visible/focused/navigated postconditions hold only under
the hypothesis that the host calls succeed. -/
theorem host_call_failures_swallowed (st : AppState) (w : Window)
    (hw : st.mainWindow = some w) :
    (show_main_window Host.allFail st).1 = st ∧
    (hide_main_window Host.allFail st).1 = st ∧
    (open_quick_capture Host.allFail st).1 = st ∧
    (globalShortcutHandler Host.allFail st).1 = st ∧
    (trayOnMenuEvent Host.allFail "open" st).1 = st ∧
    (trayOnMenuEvent Host.allFail "capture" st).1 = st ∧
    (trayOnTrayIconEvent Host.allFail
      (TrayIconEvent.click MouseButton.left) st).1 = st ∧
    (show_main_window Host.allFail st).2 = [Action.show, Action.focus] ∧
    (open_quick_capture Host.allFail st).2 =
      [Action.show, Action.focus, Action.navigate "/capture"] := by
  obtain ⟨mw, ex⟩ := st
  have hmw : mw = some w := hw
  subst hmw
  simp [show_main_window, hide_main_window, open_quick_capture,
    globalShortcutHandler, trayOnMenuEvent, trayOnTrayIconEvent, hostShow,
    hostSetFocus, hostHide, hostEval, hrefOfScript_captureScript,
    Host.allFail]

/-- C10 witness: host failures swallowed at a concrete present window. -/
theorem host_call_failures_swallowed_witness :
    (show_main_window Host.allFail ⟨some ⟨false, false, none⟩, none⟩).1 =
      ⟨some ⟨false, false, none⟩, none⟩ ∧
    (hide_main_window Host.allFail ⟨some ⟨false, false, none⟩, none⟩).1 =
      ⟨some ⟨false, false, none⟩, none⟩ ∧
    (open_quick_capture Host.allFail ⟨some ⟨false, false, none⟩, none⟩).1 =
      ⟨some ⟨false, false, none⟩, none⟩ ∧
    (globalShortcutHandler Host.allFail ⟨some ⟨false, false, none⟩, none⟩).1 =
      ⟨some ⟨false, false, none⟩, none⟩ ∧
    (trayOnMenuEvent Host.allFail "open"
      ⟨some ⟨false, false, none⟩, none⟩).1 =
      ⟨some ⟨false, false, none⟩, none⟩ ∧
    (trayOnMenuEvent Host.allFail "capture"
      ⟨some ⟨false, false, none⟩, none⟩).1 =
      ⟨some ⟨false, false, none⟩, none⟩ ∧
    (trayOnTrayIconEvent Host.allFail (TrayIconEvent.click MouseButton.left)
      ⟨some ⟨false, false, none⟩, none⟩).1 =
      ⟨some ⟨false, false, none⟩, none⟩ ∧
    (show_main_window Host.allFail ⟨some ⟨false, false, none⟩, none⟩).2 =
      [Action.show, Action.focus] ∧
    (open_quick_capture Host.allFail ⟨some ⟨false, false, none⟩, none⟩).2 =
      [Action.show, Action.focus, Action.navigate "/capture"] :=
  host_call_failures_swallowed ⟨some ⟨false, false, none⟩, none⟩
    ⟨false, false, none⟩ rfl

end CoBrain
